import Mathlib

/-!
Verification development for the walmart-client-go repository.

The Go sources are shallowly embedded: Go strings become Lean `String`
(manipulated through their underlying `List Char`, so every operation is
structurally recursive and kernel-computable), Go `map[string]T` becomes an
association list with unique keys (`aset` models `m[k] = v`, `alookup` models
`m[k]`), `time.Time` becomes a `Nat` timestamp passed explicitly, pointers
that may be nil become `Option`, and file I/O becomes explicit passing of a
filesystem value `FS`.  Mutating methods become functions returning the
updated value.  Mutex use in the Go code only serialises access and has no
effect on the single-threaded semantics modelled here.
-/

namespace Walmart

/-! ## Go string primitives

Character-level models of the `strings` package functions used by the
repository.  Go byte indices coincide with character indices on the ASCII
inputs the client handles; the models work on characters. -/

/-- Model of Go `unicode.IsSpace` restricted to the ASCII whitespace
characters (space, tab, newline, vertical tab, form feed, carriage return);
the non-ASCII Unicode space classes are not used by any input modelled
here. -/
def isGoSpace (c : Char) : Bool :=
  c = ' ' || c = '\t' || c = '\n' || c = Char.ofNat 11 || c = Char.ofNat 12 || c = '\r'

/-- Split a character list at the first occurrence of the separator `sep`:
returns the prefix before the separator and, if the separator occurs, the
remainder after it. -/
def breakOnSep (sep : List Char) : List Char → List Char × Option (List Char)
  | [] => ([], none)
  | c :: rest =>
    if sep.isPrefixOf (c :: rest) then ([], some ((c :: rest).drop sep.length))
    else
      let p := breakOnSep sep rest
      (c :: p.1, p.2)

/-- Fuel-driven splitting loop; with fuel at least the length of the input
plus one it removes every occurrence of the (non-empty) separator. -/
def splitFuel (sep : List Char) : Nat → List Char → List (List Char)
  | 0, s => [s]
  | Nat.succ fuel, s =>
    match breakOnSep sep s with
    | (a, none) => [a]
    | (a, some rest) => a :: splitFuel sep fuel rest

/-- Model of Go `strings.Split(s, sep)` on character lists.  Every call site
in the repository passes a non-empty separator; the empty-separator case
mirrors Go's explode into single characters. -/
def goSplitChars (s sep : List Char) : List (List Char) :=
  if sep.isEmpty then s.map (fun c => [c]) else splitFuel sep (s.length + 1) s

/-- Model of Go `strings.Split(s, sep)`. -/
def goSplit (s sep : String) : List String :=
  (goSplitChars s.data sep.data).map String.mk

/-- Model of Go `strings.SplitN(s, sep, 2)`: at most one split, at the first
occurrence of the separator. -/
def goSplitN2 (s sep : String) : List String :=
  match breakOnSep sep.data s.data with
  | (a, none) => [String.mk a]
  | (a, some rest) => [String.mk a, String.mk rest]

/-- Strip leading and trailing whitespace from a character list. -/
def trimChars (l : List Char) : List Char :=
  ((l.dropWhile isGoSpace).reverse.dropWhile isGoSpace).reverse

/-- Model of Go `strings.TrimSpace`. -/
def goTrim (s : String) : String := String.mk (trimChars s.data)

/-- Model of Go `strings.HasPrefix(s, pre)`. -/
def goHasPrefix (s pre : String) : Bool := pre.data.isPrefixOf s.data

/-- Model of Go `strings.Index(s, q)` for a single-character pattern:
the index of the first occurrence of `q`, or `-1` when absent. -/
def goIndexChar : List Char → Char → Int
  | [], _ => -1
  | c :: rest, q =>
    if c = q then 0
    else
      let i := goIndexChar rest q
      if i < 0 then -1 else i + 1

/-- Model of Go `strings.LastIndex(s, q)` for a single-character pattern:
the index of the last occurrence of `q`, or `-1` when absent. -/
def goLastIndexChar (l : List Char) (q : Char) : Int :=
  let j := goIndexChar l.reverse q
  if j < 0 then -1 else (l.length : Int) - 1 - j

/-- Decidable substring test: does `needle` occur contiguously inside
`haystack`? -/
def containsSub (needle : List Char) : List Char → Bool
  | [] => needle.isEmpty
  | c :: rest => needle.isPrefixOf (c :: rest) || containsSub needle rest

/-! ## Association lists modelling Go maps

A Go `map[string]α` is modelled as `List (String × α)`; `aset` models the
assignment `m[k] = v` (replace in place, or append a fresh key) and
`alookup` models the read `m[k]` (`none` for a missing key).  Every map the
program builds starts empty, so its model has pairwise distinct keys. -/

/-- Read `m[n]` from the modelled map. -/
def alookup {α : Type} : List (String × α) → String → Option α
  | [], _ => none
  | (k, v) :: rest, n => if k = n then some v else alookup rest n

/-- Perform the assignment `m[n] = c` on the modelled map. -/
def aset {α : Type} : List (String × α) → String → α → List (String × α)
  | [], n, c => [(n, c)]
  | (k, v) :: rest, n, c => if k = n then (k, c) :: rest else (k, v) :: aset rest n c

/-- The key list of a modelled map. -/
def keys {α : Type} (l : List (String × α)) : List String := l.map Prod.fst

/-- The value associated with the last binding of a key, the binding that
wins when the list is folded into a map. -/
def lookupLast {α : Type} (l : List (String × α)) (n : String) : Option α :=
  alookup l.reverse n

theorem alookup_aset_self {α : Type} (m : List (String × α)) (n : String) (c : α) :
    alookup (aset m n c) n = some c := by
  induction m with
  | nil => simp [aset, alookup]
  | cons kv rest ih =>
    obtain ⟨k, v⟩ := kv
    by_cases h : k = n
    · simp [aset, alookup, h]
    · simp [aset, alookup, h, ih]

theorem alookup_aset_ne {α : Type} (m : List (String × α)) (k n : String) (c : α)
    (h : k ≠ n) : alookup (aset m k c) n = alookup m n := by
  induction m with
  | nil => simp [aset, alookup, h]
  | cons kv rest ih =>
    obtain ⟨k', v⟩ := kv
    by_cases h' : k' = k
    · subst h'
      simp [aset, alookup, h]
    · by_cases h'' : k' = n
      · subst h''
        simp [aset, alookup, h']
      · simp [aset, alookup, h', h'', ih]

theorem alookup_append {α : Type} (a b : List (String × α)) (n : String) :
    alookup (a ++ b) n =
      match alookup a n with
      | some v => some v
      | none => alookup b n := by
  induction a with
  | nil => simp [alookup]
  | cons kv rest ih =>
    obtain ⟨k, v⟩ := kv
    by_cases h : k = n
    · simp [alookup, h]
    · simp [alookup, h, ih]

theorem lookupLast_cons {α : Type} (kv : String × α) (rest : List (String × α)) (n : String) :
    lookupLast (kv :: rest) n =
      match lookupLast rest n with
      | some v => some v
      | none => if kv.1 = n then some kv.2 else none := by
  obtain ⟨k, v⟩ := kv
  simp only [lookupLast, List.reverse_cons, alookup_append]
  cases alookup rest.reverse n <;> simp [alookup]

theorem alookup_eq_none_of_not_mem {α : Type} (l : List (String × α)) (n : String)
    (h : n ∉ keys l) : alookup l n = none := by
  induction l with
  | nil => simp [alookup]
  | cons kv rest ih =>
    obtain ⟨k, v⟩ := kv
    simp only [keys, List.map_cons, List.mem_cons] at h
    push_neg at h
    have hk : k ≠ n := fun hkn => h.1 hkn.symm
    simp only [alookup, hk, if_false]
    exact ih (by simpa [keys] using h.2)

theorem lookupLast_eq_none_of_not_mem {α : Type} (l : List (String × α)) (n : String)
    (h : n ∉ keys l) : lookupLast l n = none := by
  apply alookup_eq_none_of_not_mem
  simpa [keys] using h

/-- Folding `m[k] = f k v` over a pair list: the last binding of a key wins,
keys never bound fall through to the accumulator. -/
theorem alookup_foldl_asetf {α β : Type} (f : String → α → β) (l : List (String × α))
    (acc : List (String × β)) (n : String) :
    alookup (l.foldl (fun m kv => aset m kv.1 (f kv.1 kv.2)) acc) n =
      match lookupLast l n with
      | some v => some (f n v)
      | none => alookup acc n := by
  induction l generalizing acc with
  | nil => simp [lookupLast, alookup]
  | cons kv rest ih =>
    obtain ⟨k, v⟩ := kv
    rw [List.foldl_cons, ih, lookupLast_cons]
    cases hrest : lookupLast rest n with
    | some w => simp
    | none =>
      by_cases hk : k = n
      · subst hk
        simp [alookup_aset_self]
      · simp [hk, alookup_aset_ne _ _ _ _ hk]

/-- Special case of `alookup_foldl_asetf` with the identity on values. -/
theorem alookup_foldl_aset {α : Type} (l : List (String × α))
    (acc : List (String × α)) (n : String) :
    alookup (l.foldl (fun m kv => aset m kv.1 kv.2) acc) n =
      match lookupLast l n with
      | some v => some v
      | none => alookup acc n :=
  alookup_foldl_asetf (fun _ v => v) l acc n

theorem keys_aset {α : Type} (m : List (String × α)) (n : String) (c : α) :
    keys (aset m n c) = if n ∈ keys m then keys m else keys m ++ [n] := by
  induction m with
  | nil => simp [aset, keys]
  | cons kv rest ih =>
    obtain ⟨k, v⟩ := kv
    by_cases h : k = n
    · subst h
      simp [aset, keys]
    · have h' : ¬ n = k := fun hnk => h hnk.symm
      have ih' : List.map Prod.fst (aset rest n c) =
          if n ∈ List.map Prod.fst rest then List.map Prod.fst rest
          else List.map Prod.fst rest ++ [n] := by
        simpa [keys] using ih
      simp only [aset, if_neg h, keys, List.map_cons]
      rw [ih']
      by_cases hm : n ∈ List.map Prod.fst rest
      · simp [hm, h']
      · simp [hm, h']

theorem nodupKeys_aset {α : Type} (m : List (String × α)) (n : String) (c : α)
    (h : (keys m).Nodup) : (keys (aset m n c)).Nodup := by
  rw [keys_aset]
  by_cases hm : n ∈ keys m
  · simpa [hm] using h
  · simp only [hm, if_false]
    have := List.Nodup.append h (List.nodup_singleton n)
      (by simpa [List.disjoint_singleton] using hm)
    exact this

theorem nodupKeys_foldl_aset {α : Type} (l : List (String × α))
    (acc : List (String × α)) (h : (keys acc).Nodup) :
    (keys (l.foldl (fun m kv => aset m kv.1 kv.2) acc)).Nodup := by
  induction l generalizing acc with
  | nil => simpa using h
  | cons kv rest ih =>
    rw [List.foldl_cons]
    exact ih _ (nodupKeys_aset _ _ _ h)

theorem lookupLast_eq_alookup {α : Type} (l : List (String × α)) (n : String)
    (h : (keys l).Nodup) : lookupLast l n = alookup l n := by
  induction l with
  | nil => simp [lookupLast, alookup]
  | cons kv rest ih =>
    obtain ⟨k, v⟩ := kv
    simp only [keys, List.map_cons, List.nodup_cons] at h
    rw [lookupLast_cons, ih (by simpa [keys] using h.2)]
    by_cases hk : k = n
    · subst hk
      have : alookup rest k = none :=
        alookup_eq_none_of_not_mem rest k (by simpa [keys] using h.1)
      simp [this, alookup]
    · cases hrest : alookup rest n <;> simp [alookup, hk, hrest]

/-! ## Cookie data model (README client source, `Cookie` / `CookieStore`)

`Cookie` mirrors the Go struct (README lines 408-414): `Value`,
`LastUpdate` (modelled as a `Nat` timestamp), `Source` and `Essential`.
`CookieStore` mirrors README lines 400-406: the `Cookies` map, the store
`LastUpdate`, and the backing `FilePath` (the mutex carries no
single-threaded semantics). -/

structure Cookie where
  value : String
  lastUpdate : Nat
  source : String
  essential : Bool
deriving DecidableEq, Repr

/-- The modelled `map[string]*Cookie`. -/
abbrev CookieMap := List (String × Cookie)

structure CookieStore where
  cookies : CookieMap
  lastUpdate : Nat
  filePath : String
deriving DecidableEq, Repr

/-- `CookieStore.Get` (README lines 723-727): read the map, `nil` → `none`. -/
def CookieStore.get (cs : CookieStore) (name : String) : Option Cookie :=
  alookup cs.cookies name

/-- `CookieStore.Set` (README lines 729-734): assign into the map and stamp
the store's `LastUpdate` with the current time, passed explicitly. -/
def CookieStore.set (cs : CookieStore) (name : String) (c : Cookie) (now : Nat) :
    CookieStore :=
  { cs with cookies := aset cs.cookies name c, lastUpdate := now }

/-- The store `NewWalmartClient` constructs before loading (README lines
441-444): an empty map with the configured file path. -/
def freshStore (path : String) : CookieStore :=
  { cookies := [], lastUpdate := 0, filePath := path }

/-! ## Persistence (`CookieStore.Save` / `CookieStore.Load`)

The filesystem is modelled as a map from paths to file contents.  A present
file either holds a well-formed persisted snapshot — `Save` writes the
JSON encoding of the store's `Cookies` map and `LastUpdate` (the `FilePath`
field carries the tag `json:"-"` and the mutex is unexported, so neither is
persisted), and the JSON encoding of this record type is injective and
lossless, so the snapshot is modelled by its decoded value — or text that
does not unmarshal (`malformed`). -/

inductive FileContent where
  | valid (cookies : CookieMap) (lastUpdate : Nat)
  | malformed
deriving DecidableEq

/-- The modelled filesystem. -/
def FS : Type := String → Option FileContent

/-- The two error paths of `CookieStore.Load`: `os.ReadFile` failing, or
`json.Unmarshal` failing. -/
inductive LoadError where
  | readError
  | unmarshalError
deriving DecidableEq, Repr

/-- `CookieStore.Save` (README lines 748-758): marshal the whole store and
write it to `FilePath` (`json.MarshalIndent` cannot fail on this type; the
write is modelled as succeeding). -/
def CookieStore.save (cs : CookieStore) (fs : FS) : FS :=
  fun p => if p = cs.filePath then some (FileContent.valid cs.cookies cs.lastUpdate) else fs p

/-- The effect of `json.Unmarshal` on the store's non-nil `Cookies` map:
per the documented semantics of `encoding/json`, unmarshalling a JSON
object into an existing map keeps existing entries and assigns the decoded
ones, so the file's entries are folded into the in-memory map with
`m[k] = v`. -/
def unmarshalMergeCookies (mem fileCk : CookieMap) : CookieMap :=
  fileCk.foldl (fun m kv => aset m kv.1 kv.2) mem

/-- `CookieStore.Load` (README lines 736-746): read `FilePath` and
unmarshal into the store in place.  A read or unmarshal failure is returned
as an error and the caller's store value is unchanged. -/
def CookieStore.load (cs : CookieStore) (fs : FS) : Except LoadError CookieStore :=
  match fs cs.filePath with
  | none => .error .readError
  | some .malformed => .error .unmarshalError
  | some (.valid ck lu) =>
      .ok { cs with cookies := unmarshalMergeCookies cs.cookies ck, lastUpdate := lu }

/-- The store `NewWalmartClient` hands to the client (README lines
441-447): a fresh empty store into which any existing cookie file is
loaded, the load error being deliberately ignored (`_ = store.Load()`), so
the caller proceeds with the empty store when no usable file exists. -/
def newClientStore (path : String) (fs : FS) : CookieStore :=
  let store := freshStore path
  match store.load fs with
  | .ok s => s
  | .error _ => store

/-! ## Harvesting response cookies (`updateCookiesFromResponse`) -/

/-- The name/value extraction `updateCookiesFromResponse` performs on one
`Set-Cookie` header (README lines 622-627): split off the part before the
first `;`, split that at the first `=`, and trim both halves; headers
without an `=` in the first part are skipped (`len(nameValue) == 2`). -/
def parseSetCookie (header : String) : Option (String × String) :=
  match goSplit header ";" with
  | [] => none
  | p0 :: _ =>
    match goSplitN2 p0 "=" with
    | [n0, v0] => some (goTrim n0, goTrim v0)
    | _ => none

/-- Processing of one `Set-Cookie` header by `updateCookiesFromResponse`
(README lines 621-642): on a successful parse, look up any existing record
and store a new record with source `"response"`, preserving the existing
record's `Essential` flag (`existing != nil && existing.Essential`).  The
`updatedCount` the Go code tallies is never used and is not modelled. -/
def processSetCookie (cs : CookieStore) (header : String) (now : Nat) : CookieStore :=
  match parseSetCookie header with
  | none => cs
  | some (name, value) =>
    let existing := cs.get name
    cs.set name
      { value := value, lastUpdate := now, source := "response",
        essential := match existing with | some e => e.essential | none => false }
      now

/-- `updateCookiesFromResponse` (README lines 611-646) over the response's
list of `Set-Cookie` header values. -/
def updateCookiesFromResponse (cs : CookieStore) (setCookies : List String) (now : Nat) :
    CookieStore :=
  if setCookies.isEmpty then cs
  else setCookies.foldl (fun s h => processSetCookie s h now) cs

/-! ## Curl import (`extractCookiesFromCurl` / `InitializeFromCurl`) -/

/-- The single-quote character, written by code point. -/
def sq : String := String.mk [Char.ofNat 39]

/-- The separator `extractCookiesFromCurl` splits the captured text on: a
backslash followed by a newline (the Go literal is backslash-backslash-n). -/
def bsnl : String := String.mk ['\\', '\n']

/-- The short cookie-flag prefix the extractor recognises (dash, b, space,
single quote). -/
def bFlagPrefix : String := "-b " ++ sq

/-- The long cookie-flag prefix the extractor recognises. -/
def cookieFlagPrefix : String := "--cookie " ++ sq

/-- The quoted cookie string of one captured line (README lines 830-835):
trim the line, require one of the two cookie-flag prefixes, and slice the
characters strictly between the first and the last single quote; the Go
guards `start > 0 && end > start` are mirrored on the (character) indices
returned by the `Index`/`LastIndex` models. -/
def lineCookieString (line : String) : Option String :=
  let l := goTrim line
  if goHasPrefix l bFlagPrefix || goHasPrefix l cookieFlagPrefix then
    let start : Int := goIndexChar l.data (Char.ofNat 39) + 1
    let stop : Int := goLastIndexChar l.data (Char.ofNat 39)
    if start > 0 && stop > start then
      some (String.mk ((l.data.drop start.toNat).take (stop - start).toNat))
    else none
  else none

/-- The name/value pairs one captured line contributes (README lines
836-842): split the quoted cookie string on `"; "`, split each pair at the
first `=`, trim both halves, and skip pairs without an `=`. -/
def linePairs (line : String) : List (String × String) :=
  match lineCookieString line with
  | none => []
  | some cs =>
    (goSplit cs "; ").filterMap (fun pair =>
      match goSplitN2 pair "=" with
      | [k, v] => some (goTrim k, goTrim v)
      | _ => none)

/-- One iteration of the extractor's outer loop: write the line's pairs
into the shared cookies map in order. -/
def processCurlLine (m : List (String × String)) (line : String) :
    List (String × String) :=
  (linePairs line).foldl (fun acc kv => aset acc kv.1 kv.2) m

/-- `extractCookiesFromCurl` (README lines 825-847): split the captured
text into backslash-newline separated lines and collect every line's cookie
pairs into one map, starting from the empty map. -/
def extractCookiesFromCurl (curlCmd : String) : List (String × String) :=
  (goSplit curlCmd bsnl).foldl processCurlLine []

/-- The hardcoded essential-name allow-list of `InitializeFromCurl`
(README line 477). -/
def essentialCookies : List String := ["CID", "SPID", "auth", "customer", "hasCID", "type"]

/-- The record `InitializeFromCurl` builds for one extracted pair (README
lines 479-493): source `"curl"`, essential exactly when the name occurs in
the allow-list (the Go loop with `break` is a first-match scan). -/
def cookieFromCurl (name value : String) (now : Nat) : Cookie :=
  { value := value, lastUpdate := now, source := "curl",
    essential := essentialCookies.any (fun e => name == e) }

/-- The store-writing loop of `InitializeFromCurl` (README lines 479-496):
`Set` each extracted pair's record.  Go iterates the extracted map in
unspecified order; the model iterates the pair list in order, which yields
the same store because the extracted map's keys are distinct. -/
def importCookies (cs : CookieStore) (pairs : List (String × String)) (now : Nat) :
    CookieStore :=
  pairs.foldl (fun st kv => st.set kv.1 (cookieFromCurl kv.1 kv.2 now) now) cs

/-- `InitializeFromCurl` (README lines 465-504) after the captured file has
been read: extract the pairs and write their records into the store (the
final best-effort `Save` does not change the store). -/
def initializeFromCurl (cs : CookieStore) (curlText : String) (now : Nat) : CookieStore :=
  importCookies cs (extractCookiesFromCurl curlText) now

/-! ## Order data model (`models.go`)

Monetary `float64` values are modelled as rationals: every amount the
claims touch is a small decimal, on which `float64` addition and comparison
are exact.  Struct fields never read by a modelled operation are elided. -/

/-- `PriceLineItem` (models.go lines 39-43). -/
structure PriceLineItem where
  label : String
  value : ℚ
  displayValue : String
deriving DecidableEq, Repr

/-- `OrderPriceDetails` (models.go lines 28-36). -/
structure OrderPriceDetails where
  subTotal : Option PriceLineItem := none
  taxTotal : Option PriceLineItem := none
  grandTotal : Option PriceLineItem := none
  driverTip : Option PriceLineItem := none
  totalWithTip : Option PriceLineItem := none
  savings : Option PriceLineItem := none
  fees : List PriceLineItem := []
deriving DecidableEq, Repr

/-- The fields of `OrderGroup` (models.go lines 72-82) read by the
modelled operations. -/
structure OrderGroupM where
  fulfillmentType : String
deriving DecidableEq, Repr

/-- The fields of `Order` (models.go lines 13-25) read by the modelled
operations. -/
structure Order where
  id : String := ""
  groups : List OrderGroupM := []
  priceDetails : Option OrderPriceDetails := none
deriving DecidableEq, Repr

/-- `OrderResponse` (models.go lines 6-10): the nested order pointer may
be nil. -/
structure OrderResponse where
  order : Option Order
deriving DecidableEq, Repr

/-- `Order.IsDeliveryOrder` (models.go lines 233-240). -/
def Order.isDeliveryOrder (o : Order) : Bool :=
  o.groups.any (fun g => g.fulfillmentType == "SC_DELIVERY" || g.fulfillmentType == "DFS")

/-- Two-digit zero-padded rendering of a cents remainder. -/
def twoDigits (n : Nat) : String :=
  if n < 10 then "0" ++ toString n else toString n

/-- Floor of a rational. -/
def qfloor (q : ℚ) : Int := ⌊q⌋

/-- Model of `fmt.Sprintf("$%.2f", v)` on the modelled rational amounts:
round to cents and print with two decimals.  (`%.2f` rounds the binary
float half-to-even while this model rounds half-up; on amounts that are an
exact number of cents — every amount in the claims — no rounding occurs
and the two agree.) -/
def sprintfDollar2 (v : ℚ) : String :=
  let cents : Int := qfloor (v * 100 + 1 / 2)
  let a := cents.natAbs
  "$" ++ (if cents < 0 then "-" else "") ++ toString (a / 100) ++ "." ++ twoDigits (a % 100)

/-- `Order.CalculateTotalWithTip` (models.go lines 210-230): return the
order unchanged when `PriceDetails` or `GrandTotal` is nil; read the tip
from `DriverTip` when present (else `0`); only when the tip is positive,
set `TotalWithTip` to the sum with its formatted display string. -/
def Order.calculateTotalWithTip (o : Order) : Order :=
  match o.priceDetails with
  | none => o
  | some pd =>
    match pd.grandTotal with
    | none => o
    | some gt =>
      let total := gt.value
      let tipAmount : ℚ :=
        match pd.driverTip with
        | some dt => dt.value
        | none => 0
      if tipAmount > 0 then
        let totalWithTip := total + tipAmount
        let item : PriceLineItem :=
          { label := "Total with Tip", value := totalWithTip,
            displayValue := sprintfDollar2 totalWithTip }
        { o with priceDetails := some { pd with totalWithTip := some item } }
      else o

/-! ## Outcome classification (`GetOrder` / `GetPurchaseHistory`)

Both upstream calls classify the HTTP response identically (README lines
543-552 and purchase_history.go lines 124-133).  The error values Go builds
with `fmt.Errorf` are modelled by `CallError`, each constructor carrying
the exact message text the code formats.  JSON decoding of the body
(`json.Unmarshal`) is external to the client's logic and is modelled as a
decode function argument returning `none` when the body does not
unmarshal. -/

/-- The classified failures of one upstream call, each carrying the exact
`fmt.Errorf` message text. -/
inductive CallError where
  | rateLimited (msg : String)
  | accessDenied (msg : String)
  | unexpectedStatus (code : Nat) (msg : String)
  | decodeFailure (msg : String)
deriving DecidableEq, Repr

/-- The HTTP 429 message (README line 546, purchase_history.go line 127). -/
def rateLimitedMsg : String :=
  "rate limited - cookies might be stale, try refreshing from browser"

/-- The HTTP 403/418 message (README line 549, purchase_history.go line 130). -/
def accessDeniedMsg : String :=
  "access denied - cookies expired, please update from browser"

/-- The catch-all non-200 message `fmt.Errorf("HTTP %d: %s", status, body)`. -/
def httpStatusMsg (status : Nat) (body : String) : String :=
  "HTTP " ++ toString status ++ ": " ++ body

/-- The `json.Unmarshal` failure message prefix of both calls. -/
def parseFailMsg : String := "failed to parse response"

/-- The nil-order message of `GetOrder` (README line 561). -/
def noOrderDataMsg : String := "no order data in response"

/-- The received HTTP response: status code, body, and the `Set-Cookie`
header values. -/
structure HttpResponse where
  statusCode : Nat
  body : String
  setCookieHeaders : List String := []

/-- `GetOrder`'s handling of the received response (README lines 543-574):
classify non-200 statuses (429, then 403/418, then the catch-all), decode
the body, fail when the nested `Data.Order` is nil, and post-process
delivery orders with `CalculateTotalWithTip`. -/
def getOrderHandleResponse (decodeOrder : String → Option OrderResponse)
    (resp : HttpResponse) : Except CallError Order :=
  if resp.statusCode ≠ 200 then
    if resp.statusCode = 429 then .error (.rateLimited rateLimitedMsg)
    else if resp.statusCode = 403 || resp.statusCode = 418 then
      .error (.accessDenied accessDeniedMsg)
    else .error (.unexpectedStatus resp.statusCode (httpStatusMsg resp.statusCode resp.body))
  else
    match decodeOrder resp.body with
    | none => .error (.decodeFailure parseFailMsg)
    | some orderResp =>
      match orderResp.order with
      | none => .error (.decodeFailure noOrderDataMsg)
      | some order =>
        .ok (if order.isDeliveryOrder then order.calculateTotalWithTip else order)

/-- The pagination fields of `PurchaseHistoryResponse` (purchase_history.go
lines 24-34); the order-group payload is not read by any modelled
operation. -/
structure PurchaseHistoryResponse where
  nextPageCursor : String := ""
  prevPageCursor : String := ""
deriving DecidableEq, Repr

/-- `GetPurchaseHistory`'s handling of the received response
(purchase_history.go lines 124-139): the same status classification,
followed by decoding; there is no nil check on the decoded payload. -/
def getPurchaseHistoryHandleResponse (decodePH : String → Option PurchaseHistoryResponse)
    (resp : HttpResponse) : Except CallError PurchaseHistoryResponse :=
  if resp.statusCode ≠ 200 then
    if resp.statusCode = 429 then .error (.rateLimited rateLimitedMsg)
    else if resp.statusCode = 403 || resp.statusCode = 418 then
      .error (.accessDenied accessDeniedMsg)
    else .error (.unexpectedStatus resp.statusCode (httpStatusMsg resp.statusCode resp.body))
  else
    match decodePH resp.body with
    | none => .error (.decodeFailure parseFailMsg)
    | some historyResp => .ok historyResp

/-! ## Rate limiting (`NewWalmartClient` / the call prologue)

`NewWalmartClient` starts `time.NewTicker(config.RateLimit)` at
construction (README line 458); the ticker delivers on a one-slot buffered
channel at every multiple of the period since construction, dropping ticks
while the slot is full.  Each call's prologue (README lines 508-512,
purchase_history.go lines 84-88) receives from the ticker channel unless
`lastRequest` is still the zero time, then stamps `lastRequest`.  Time is
modelled discretely from construction at time `0`. -/

/-- The ticker state: its fixed period and the time up to which ticks have
already been consumed or dropped by a completed receive. -/
structure TickerModel where
  period : Nat
  consumedUpTo : Nat
deriving DecidableEq, Repr

/-- The first tick strictly after time `t` (ticks occur at positive
multiples of the period). -/
def nextTickAfter (period t : Nat) : Nat := period * (t / period + 1)

/-- Receiving from the ticker channel at time `t`: if a tick is already
buffered (the first unconsumed tick is at or before `t`) the receive
returns immediately at `t`, otherwise it blocks until that tick fires.
Ticks that fired while the buffer slot was full were dropped, so after the
receive the next available tick is the first one after the completion
time. -/
def TickerModel.receive (tk : TickerModel) (t : Nat) : Nat × TickerModel :=
  let release := max t (nextTickAfter tk.period tk.consumedUpTo)
  (release, { tk with consumedUpTo := release })

/-- The client timing state: the ticker and `lastRequest` (`none` models
the zero `time.Time` of a freshly constructed client). -/
structure ClientTiming where
  ticker : TickerModel
  lastRequest : Option Nat
deriving DecidableEq, Repr

/-- A freshly constructed client with the given rate-limit period:
ticker started now (time `0`), `lastRequest` zero. -/
def newClientTiming (period : Nat) : ClientTiming :=
  { ticker := { period := period, consumedUpTo := 0 }, lastRequest := none }

/-- The rate-limiting prologue of `GetOrder`/`GetPurchaseHistory`: skip the
ticker receive when `lastRequest` is the zero time, otherwise block on the
ticker; then stamp `lastRequest` with the dispatch time.  Returns the
dispatch time (the time at which the request proceeds) and the new state;
`t` is the time the call is issued. -/
def dispatchCall (st : ClientTiming) (t : Nat) : Nat × ClientTiming :=
  match st.lastRequest with
  | none => (t, { st with lastRequest := some t })
  | some _ =>
    let r := st.ticker.receive t
    (r.1, { ticker := r.2, lastRequest := some r.1 })

/-! ## `GetOrderAutoDetect` (README lines 577-592)

The two inner `GetOrder` calls are modelled by a fetch function from the
`isInStore` flag to that call's outcome. -/

/-- The wrapping message of the combined failure (README line 591); the
second attempt's error is wrapped via `%w`. -/
def autoDetectMsg : String := "order not found as either in-store or delivery"

/-- `GetOrderAutoDetect`: try in-store first (`isInStore = true`); on
success return; otherwise try delivery (`isInStore = false`); on success
return; otherwise fail with the combined error wrapping the second
attempt's error. -/
def getOrderAutoDetect (fetch : Bool → Except CallError Order) :
    Except (String × CallError) Order :=
  match fetch true with
  | .ok order => .ok order
  | .error _ =>
    match fetch false with
    | .ok order => .ok order
    | .error e2 => .error (autoDetectMsg, e2)

/-! ## Purchase-history request building (purchase_history.go) -/

/-- `PurchaseHistoryRequest` (purchase_history.go lines 13-21); the Go
`Type` field is named `orderType` here. -/
structure PurchaseHistoryRequest where
  cursor : String := ""
  search : String := ""
  filterIds : List String := []
  limit : Int := 0
  orderType : Option String := none
  minTimestamp : Option Int := none
  maxTimestamp : Option Int := none
deriving DecidableEq, Repr

/-- The `input` object of the variables map built by
`buildPurchaseHistoryEndpoint` (purchase_history.go lines 225-233). -/
structure PHVariablesInput where
  cursor : String
  search : String
  filterIds : List String
  limit : Int
  orderType : Option String
  minTimestamp : Option Int
  maxTimestamp : Option Int
deriving DecidableEq, Repr

/-- The variables map `buildPurchaseHistoryEndpoint` JSON-encodes into the
endpoint's `variables` query parameter (purchase_history.go lines
224-239), modelled structurally: the JSON encoding of this fixed shape is
injective, so the encoded object stands for the embedded JSON text. -/
structure PHVariables where
  input : PHVariablesInput
  platform : String
deriving DecidableEq, Repr

/-- `buildPurchaseHistoryEndpoint`'s variables construction
(purchase_history.go lines 223-244): every request field is copied through
and `platform` is `"WEB"`. -/
def buildPurchaseHistoryVariables (req : PurchaseHistoryRequest) : PHVariables :=
  { input :=
      { cursor := req.cursor, search := req.search, filterIds := req.filterIds,
        limit := req.limit, orderType := req.orderType,
        minTimestamp := req.minTimestamp, maxTimestamp := req.maxTimestamp },
    platform := "WEB" }

/-- The default-substitution prefix of `GetPurchaseHistory`
(purchase_history.go lines 90-95) followed by the endpoint's variables
construction: a zero `Limit` is replaced by `10` before the endpoint is
built. -/
def getPurchaseHistoryRequestVars (req : PurchaseHistoryRequest) : PHVariables :=
  let req := if req.limit = 0 then { req with limit := 10 } else req
  buildPurchaseHistoryVariables req

/-! ## Concrete instances used by the witnesses and counterexamples below -/

/-- An order whose update helper: the order with `TotalWithTip` set in its
price details. -/
def withTotalWithTip (o : Order) (pd : OrderPriceDetails) (item : PriceLineItem) : Order :=
  { o with priceDetails := some { pd with totalWithTip := some item } }

/-- A store holding an essential and a non-essential record. -/
def c1Store : CookieStore :=
  { cookies :=
      [("CID", { value := "old", lastUpdate := 1, source := "curl", essential := true }),
       ("x", { value := "1", lastUpdate := 1, source := "curl", essential := false })],
    lastUpdate := 1, filePath := "p" }

/-- A two-entry store with distinct keys. -/
def c3Store : CookieStore :=
  { cookies :=
      [("CID", { value := "v1", lastUpdate := 3, source := "curl", essential := true }),
       ("b", { value := "v2", lastUpdate := 4, source := "response", essential := false })],
    lastUpdate := 5, filePath := "cookies.json" }

/-- An empty filesystem. -/
def emptyFS : FS := fun _ => none

/-- A record present only in memory before a `Load`. -/
def c5MemCookie : Cookie :=
  { value := "memval", lastUpdate := 1, source := "manual", essential := false }

/-- A record present only in the backing file. -/
def c5FileCookie : Cookie :=
  { value := "fileval", lastUpdate := 2, source := "curl", essential := true }

/-- An in-memory store holding the name `x`, which the backing file does
not mention. -/
def c5Store : CookieStore :=
  { cookies := [("x", c5MemCookie)], lastUpdate := 5, filePath := "p" }

/-- A filesystem whose file at path `p` holds only the name `y`. -/
def c5FS : FS := fun p => if p = "p" then some (.valid [("y", c5FileCookie)] 7) else none

/-- The store after `c5Store.load c5FS` (the pre-load store on error). -/
def c5After : CookieStore :=
  match c5Store.load c5FS with
  | .ok s => s
  | .error _ => c5Store

/-- The grand total of the tip-computation example order. -/
def c6GT : PriceLineItem := { label := "Total", value := 100, displayValue := "$100.00" }

/-- The driver tip of the tip-computation example order. -/
def c6Tip : PriceLineItem := { label := "Driver Tip", value := 5, displayValue := "$5.00" }

/-- Price details with a 100.00 grand total and a 5.00 driver tip. -/
def c6PD : OrderPriceDetails := { grandTotal := some c6GT, driverTip := some c6Tip }

/-- Price details with a 100.00 grand total and no driver tip. -/
def c6PDNoTip : OrderPriceDetails := { grandTotal := some c6GT }

/-- A delivery-priced order with grand total 100.00 and tip 5.00. -/
def c6Order : Order := { id := "o1", priceDetails := some c6PD }

/-- The same order without a driver tip. -/
def c6OrderNoTip : Order := { id := "o2", priceDetails := some c6PDNoTip }

/-- An order with nil price details. -/
def c10OrderNoPD : Order := { id := "o3" }

/-- Price details whose grand total is nil. -/
def c10PD : OrderPriceDetails := { subTotal := some c6GT }

/-- An order whose price details lack a grand total. -/
def c10Order : Order := { id := "o4", priceDetails := some c10PD }

/-- A decode function that rejects every body. -/
def decNone : String → Option OrderResponse := fun _ => none

/-- A decode function that accepts every body but yields a nil nested
order. -/
def decNilOrder : String → Option OrderResponse := fun _ => some { order := none }

/-- A purchase-history decode function that rejects every body. -/
def decPHNone : String → Option PurchaseHistoryResponse := fun _ => none

/-- A freshly constructed client with the 2-second default interval. -/
def c4Client : ClientTiming := newClientTiming 2

/-- The order returned by the successful auto-detect attempts. -/
def c7Order : Order := { id := "w" }

/-- The first attempt's failure in the auto-detect examples. -/
def c7Err1 : CallError := .decodeFailure "no order data in response"

/-- The second attempt's failure in the failing auto-detect example. -/
def c7Err2 : CallError := .rateLimited rateLimitedMsg

/-- A fetch whose in-store attempt succeeds. -/
def c7FetchOk : Bool → Except CallError Order := fun _ => .ok c7Order

/-- A second fetch agreeing with `c7FetchOk` on the in-store attempt. -/
def c7FetchOk2 : Bool → Except CallError Order :=
  fun b => if b then .ok c7Order else .error c7Err2

/-- A fetch whose in-store attempt fails and whose delivery attempt
succeeds. -/
def c7FetchSecond : Bool → Except CallError Order :=
  fun b => if b then .error c7Err1 else .ok c7Order

/-- A fetch both of whose attempts fail. -/
def c7FetchFail : Bool → Except CallError Order :=
  fun b => if b then .error c7Err1 else .error c7Err2

/-- A purchase-history request with the zero `Limit`. -/
def phReqZero : PurchaseHistoryRequest := { search := "cheese" }

/-- A purchase-history request with an explicit `Limit`. -/
def phReqFive : PurchaseHistoryRequest := { limit := 5 }

/-- The cookie-flag line fragment of the import claim:
`-b 'a=1; b=2'`. -/
def c8Frag : String := "-b " ++ sq ++ "a=1; b=2" ++ sq

/-- A one-line captured text containing `c8Frag` mid-line, where the
extractor's prefix check does not fire. -/
def c8Text : String := "curl " ++ c8Frag

/-! ## Helper lemmas -/

theorem sprintfDollar2_105 : sprintfDollar2 105 = "$105.00" := by
  have h : qfloor ((105 : ℚ) * 100 + 1 / 2) = 10500 := by
    simp only [qfloor]
    norm_num
  simp only [sprintfDollar2, h]
  decide

/-- Lines whose pairs never bind `n` leave the map's entry for `n`
untouched. -/
theorem alookup_processCurlLine_of_not_mem (m : List (String × String)) (line : String)
    (n : String) (h : n ∉ keys (linePairs line)) :
    alookup (processCurlLine m line) n = alookup m n := by
  rw [processCurlLine, alookup_foldl_aset, lookupLast_eq_none_of_not_mem _ _ h]

theorem alookup_foldl_processCurlLine (lines : List String) (m : List (String × String))
    (n : String) (h : ∀ l ∈ lines, n ∉ keys (linePairs l)) :
    alookup (lines.foldl processCurlLine m) n = alookup m n := by
  induction lines generalizing m with
  | nil => rfl
  | cons line rest ih =>
    rw [List.foldl_cons, ih _ (fun l hl => h l (List.mem_cons_of_mem _ hl)),
      alookup_processCurlLine_of_not_mem _ _ _ (h line (List.mem_cons_self _ _))]

theorem nodupKeys_processCurlLine (m : List (String × String)) (line : String)
    (h : (keys m).Nodup) : (keys (processCurlLine m line)).Nodup :=
  nodupKeys_foldl_aset _ _ h

theorem nodupKeys_foldl_processCurlLine (lines : List String)
    (m : List (String × String)) (h : (keys m).Nodup) :
    (keys (lines.foldl processCurlLine m)).Nodup := by
  induction lines generalizing m with
  | nil => simpa using h
  | cons line rest ih => exact ih _ (nodupKeys_processCurlLine _ _ h)

/-- The extracted curl map always has pairwise distinct keys. -/
theorem nodupKeys_extractCookiesFromCurl (cmd : String) :
    (keys (extractCookiesFromCurl cmd)).Nodup :=
  nodupKeys_foldl_processCurlLine _ _ (by simp [keys])

theorem importCookies_cookies (cs : CookieStore) (pairs : List (String × String)) (now : Nat) :
    (importCookies cs pairs now).cookies =
      pairs.foldl (fun m kv => aset m kv.1 (cookieFromCurl kv.1 kv.2 now)) cs.cookies := by
  induction pairs generalizing cs with
  | nil => rfl
  | cons kv rest ih =>
    rw [importCookies, List.foldl_cons, List.foldl_cons]
    exact ih (cs.set kv.1 (cookieFromCurl kv.1 kv.2 now) now)

/-- What `InitializeFromCurl`'s store-writing loop produces for each name:
the record of the last extracted pair of that name, or the pre-existing
record when the name was not extracted. -/
theorem importCookies_get (cs : CookieStore) (pairs : List (String × String))
    (now : Nat) (n : String) :
    (importCookies cs pairs now).get n =
      match lookupLast pairs n with
      | some v => some (cookieFromCurl n v now)
      | none => cs.get n := by
  rw [CookieStore.get, importCookies_cookies,
    alookup_foldl_asetf (fun k v => cookieFromCurl k v now)]
  cases lookupLast pairs n <;> simp [CookieStore.get]

/-! ## Claims -/

/-- C1: For every cookie name whose stored record has `essential = true`,
harvesting a response `Set-Cookie` directive of the same name via
`updateCookiesFromResponse` writes a new record (value from the directive,
source `"response"`) that still has `essential = true`; a name with no
pre-existing record, or a non-essential one, is written with
`essential = false`. -/
theorem C1_essential_flag_preserved (cs : CookieStore) (h n v : String) (now : Nat)
    (hp : parseSetCookie h = some (n, v)) :
    ((∃ e, cs.get n = some e ∧ e.essential = true) →
      (updateCookiesFromResponse cs [h] now).get n =
        some { value := v, lastUpdate := now, source := "response", essential := true }) ∧
    ((cs.get n = none ∨ ∃ e, cs.get n = some e ∧ e.essential = false) →
      (updateCookiesFromResponse cs [h] now).get n =
        some { value := v, lastUpdate := now, source := "response", essential := false }) := by
  have hbase : updateCookiesFromResponse cs [h] now =
      cs.set n
        { value := v, lastUpdate := now, source := "response",
          essential := match cs.get n with | some e => e.essential | none => false }
        now := by
    simp [updateCookiesFromResponse, processSetCookie, hp]
  constructor
  · rintro ⟨e, he, hess⟩
    have he' : alookup cs.cookies n = some e := he
    rw [hbase]
    simp [CookieStore.set, CookieStore.get, alookup_aset_self, he', hess]
  · rintro (hnone | ⟨e, he, hess⟩) <;> rw [hbase]
    · have hnone' : alookup cs.cookies n = none := hnone
      simp [CookieStore.set, CookieStore.get, alookup_aset_self, hnone']
    · have he' : alookup cs.cookies n = some e := he
      simp [CookieStore.set, CookieStore.get, alookup_aset_self, he', hess]

/-- Witness for C1 at a concrete store: the essential `CID` record keeps
its flag through a response update; the non-essential `x` record stays
non-essential. -/
theorem C1_witness :
    (updateCookiesFromResponse c1Store ["CID=zzz; Path=/"] 9).get "CID" =
      some { value := "zzz", lastUpdate := 9, source := "response", essential := true } ∧
    (updateCookiesFromResponse c1Store ["x=2"] 9).get "x" =
      some { value := "2", lastUpdate := 9, source := "response", essential := false } := by
  constructor
  · exact (C1_essential_flag_preserved c1Store "CID=zzz; Path=/" "CID" "zzz" 9 (by decide)).1
      ⟨{ value := "old", lastUpdate := 1, source := "curl", essential := true }, by decide, rfl⟩
  · exact (C1_essential_flag_preserved c1Store "x=2" "x" "2" 9 (by decide)).2
      (Or.inr ⟨{ value := "1", lastUpdate := 1, source := "curl", essential := false },
        by decide, rfl⟩)

/-- C3: For every store state (keys distinct, as in any Go map), `Save`
followed by `Load` on a freshly constructed empty store with the same file
path reproduces an identical set of name-to-record mappings and the same
store timestamp. -/
theorem C3_save_load_roundtrip (s : CookieStore) (fs : FS)
    (hnd : (keys s.cookies).Nodup) :
    ∃ s', (freshStore s.filePath).load (s.save fs) = .ok s' ∧
      (∀ n, s'.get n = s.get n) ∧ s'.lastUpdate = s.lastUpdate := by
  have hload : (freshStore s.filePath).load (s.save fs) =
      .ok { cookies := unmarshalMergeCookies [] s.cookies,
            lastUpdate := s.lastUpdate, filePath := s.filePath } := by
    simp [CookieStore.load, CookieStore.save, freshStore]
  refine ⟨_, hload, fun n => ?_, rfl⟩
  have h1 := alookup_foldl_aset s.cookies [] n
  rw [lookupLast_eq_alookup _ _ hnd] at h1
  show alookup (unmarshalMergeCookies [] s.cookies) n = s.get n
  rw [unmarshalMergeCookies, h1]
  cases hx : alookup s.cookies n <;> simp [CookieStore.get, hx, alookup]

/-- Witness for C3 at a concrete two-entry store. -/
theorem C3_witness :
    (keys c3Store.cookies).Nodup ∧
    ((freshStore c3Store.filePath).load (c3Store.save emptyFS)).toOption.map
      (fun s' => (s'.get "CID", s'.get "b", s'.lastUpdate)) =
      some (c3Store.get "CID", c3Store.get "b", c3Store.lastUpdate) := by
  refine ⟨by decide, ?_⟩
  obtain ⟨s', hload, hget, hlu⟩ := C3_save_load_roundtrip c3Store emptyFS (by decide)
  rw [hload]
  simp [Except.toOption, hget, hlu]

/-- C5 counterexample: `Load` does not replace the in-memory state.  On a
store already holding the name `x` and a backing file holding only the
name `y`, the load succeeds yet the pre-load entry `x` survives alongside
the file entry `y` (Go `json.Unmarshal` keeps existing entries of a
non-nil map), contradicting the claim that no entries survive from the
pre-Load in-memory state. -/
theorem C5_counterexample :
    (c5Store.load c5FS).isOk = true ∧
    c5After.get "x" = some c5MemCookie ∧
    c5After.get "y" = some c5FileCookie ∧
    c5After.lastUpdate = 7 := by decide

/-- C5 amended: a successful `Load` merges the file's entries over the
in-memory map — a name present in the file gets the file's record, and a
pre-load entry whose name is absent from the file survives; on a store
whose pre-load state is empty (as at every call site) the resulting
entries equal exactly the file's; an absent file yields a read error and a
malformed file an unmarshal error, the store value unchanged, and
`NewWalmartClient` then proceeds with the empty store. -/
theorem C5_amended_load_merges (st : CookieStore) (fs : FS) :
    (∀ ck lu, fs st.filePath = some (.valid ck lu) →
      st.load fs =
        .ok { st with cookies := unmarshalMergeCookies st.cookies ck, lastUpdate := lu } ∧
      (∀ n, alookup (unmarshalMergeCookies st.cookies ck) n =
        match lookupLast ck n with
        | some c => some c
        | none => st.get n) ∧
      (st.cookies = [] → (keys ck).Nodup →
        ∀ n, alookup (unmarshalMergeCookies st.cookies ck) n = alookup ck n)) ∧
    (fs st.filePath = none → st.load fs = .error .readError) ∧
    (fs st.filePath = some .malformed → st.load fs = .error .unmarshalError) ∧
    (fs st.filePath = none → newClientStore st.filePath fs = freshStore st.filePath) := by
  refine ⟨?_, ?_, ?_, ?_⟩
  · intro ck lu hck
    refine ⟨by simp [CookieStore.load, hck], fun n => ?_, ?_⟩
    · rw [unmarshalMergeCookies, alookup_foldl_aset]
      cases lookupLast ck n <;> simp [CookieStore.get]
    · intro h0 hnd n
      rw [unmarshalMergeCookies, h0, alookup_foldl_aset, lookupLast_eq_alookup _ _ hnd]
      cases hx : alookup ck n <;> simp [alookup]
  · intro h
    simp [CookieStore.load, h]
  · intro h
    simp [CookieStore.load, h]
  · intro h
    simp [newClientStore, CookieStore.load, freshStore, h]

/-- Witness for C5's amended claim: the concrete merge, and the read-error
path on a path the filesystem lacks. -/
theorem C5_witness :
    c5Store.load c5FS =
      .ok { c5Store with
            cookies := unmarshalMergeCookies c5Store.cookies [("y", c5FileCookie)],
            lastUpdate := 7 } ∧
    (freshStore "q").load c5FS = .error .readError :=
  ⟨((C5_amended_load_merges c5Store c5FS).1 [("y", c5FileCookie)] 7 (by decide)).1,
   (C5_amended_load_merges (freshStore "q") c5FS).2.1 (by decide)⟩

/-- C6: For every order whose price details hold a 100.00 grand total and
a 5.00 driver tip, `CalculateTotalWithTip` sets `TotalWithTip` to exactly
105.00 with display string `"$105.00"`; with the driver tip absent, or
with tip value 0, the order is returned unchanged, so `TotalWithTip`
remains unset. -/
theorem C6_tip_computation (o : Order) (pd : OrderPriceDetails) (gt : PriceLineItem)
    (hpd : o.priceDetails = some pd) (hgt : pd.grandTotal = some gt)
    (hval : gt.value = 100) :
    (∀ dt, pd.driverTip = some dt → dt.value = 5 →
      o.calculateTotalWithTip =
        withTotalWithTip o pd
          { label := "Total with Tip", value := 105, displayValue := "$105.00" }) ∧
    (pd.driverTip = none → o.calculateTotalWithTip = o) ∧
    (∀ dt, pd.driverTip = some dt → dt.value = 0 → o.calculateTotalWithTip = o) := by
  refine ⟨?_, ?_, ?_⟩
  · intro dt hdt hv
    have h105 : (100 : ℚ) + 5 = 105 := by norm_num
    have hpos : (0 : ℚ) < 5 := by norm_num
    simp only [Order.calculateTotalWithTip, hpd, hgt, hdt, hval, hv, withTotalWithTip]
    rw [if_pos hpos, h105, sprintfDollar2_105]
  · intro hdt
    simp [Order.calculateTotalWithTip, hpd, hgt, hdt]
  · intro dt hdt hv
    simp [Order.calculateTotalWithTip, hpd, hgt, hdt, hv]

/-- Witness for C6 at concrete orders: 100.00 + 5.00 tip, and the
tipless order. -/
theorem C6_witness :
    c6Order.calculateTotalWithTip =
      withTotalWithTip c6Order c6PD
        { label := "Total with Tip", value := 105, displayValue := "$105.00" } ∧
    c6OrderNoTip.calculateTotalWithTip = c6OrderNoTip :=
  ⟨(C6_tip_computation c6Order c6PD c6GT rfl rfl rfl).1 c6Tip rfl rfl,
   (C6_tip_computation c6OrderNoTip c6PDNoTip c6GT rfl rfl rfl).2.1 rfl⟩

/-- C10: For every order whose `PriceDetails` is nil or whose
`PriceDetails.GrandTotal` is nil, `CalculateTotalWithTip` returns without
touching anything: the order is left completely unchanged (in the Go
code these are the early returns before any dereference). -/
theorem C10_nil_guard (o : Order) :
    (o.priceDetails = none → o.calculateTotalWithTip = o) ∧
    (∀ pd, o.priceDetails = some pd → pd.grandTotal = none →
      o.calculateTotalWithTip = o) := by
  constructor
  · intro h
    simp [Order.calculateTotalWithTip, h]
  · intro pd hpd hgt
    simp [Order.calculateTotalWithTip, hpd, hgt]

/-- Witness for C10 at concrete orders with the two nil shapes. -/
theorem C10_witness :
    c10OrderNoPD.calculateTotalWithTip = c10OrderNoPD ∧
    c10Order.calculateTotalWithTip = c10Order :=
  ⟨(C10_nil_guard c10OrderNoPD).1 rfl, (C10_nil_guard c10Order).2 c10PD rfl rfl⟩

/-- C2: Both upstream calls classify the outcome by HTTP status exactly
as claimed: 429 yields the rate-limited failure with its staleness hint,
403 or 418 the access-denied failure with its update-cookies instruction,
200 with a body from which the expected (nested-order) payload cannot be
decoded a decode failure, and every other non-200 an unexpected-status
failure carrying the exact status code and the raw body. -/
theorem C2_status_classification (dec : String → Option OrderResponse)
    (decPH : String → Option PurchaseHistoryResponse) (resp : HttpResponse) :
    (resp.statusCode = 429 →
      getOrderHandleResponse dec resp = .error (.rateLimited rateLimitedMsg) ∧
      getPurchaseHistoryHandleResponse decPH resp = .error (.rateLimited rateLimitedMsg)) ∧
    ((resp.statusCode = 403 ∨ resp.statusCode = 418) →
      getOrderHandleResponse dec resp = .error (.accessDenied accessDeniedMsg) ∧
      getPurchaseHistoryHandleResponse decPH resp = .error (.accessDenied accessDeniedMsg)) ∧
    (resp.statusCode ≠ 200 → resp.statusCode ≠ 429 → resp.statusCode ≠ 403 →
      resp.statusCode ≠ 418 →
      getOrderHandleResponse dec resp =
        .error (.unexpectedStatus resp.statusCode (httpStatusMsg resp.statusCode resp.body)) ∧
      getPurchaseHistoryHandleResponse decPH resp =
        .error (.unexpectedStatus resp.statusCode (httpStatusMsg resp.statusCode resp.body))) ∧
    (resp.statusCode = 200 → dec resp.body = none →
      getOrderHandleResponse dec resp = .error (.decodeFailure parseFailMsg)) ∧
    (resp.statusCode = 200 → ∀ r, dec resp.body = some r → r.order = none →
      getOrderHandleResponse dec resp = .error (.decodeFailure noOrderDataMsg)) ∧
    (resp.statusCode = 200 → decPH resp.body = none →
      getPurchaseHistoryHandleResponse decPH resp = .error (.decodeFailure parseFailMsg)) ∧
    rateLimitedMsg = "rate limited - cookies might be stale, try refreshing from browser" ∧
    accessDeniedMsg = "access denied - cookies expired, please update from browser" := by
  refine ⟨?_, ?_, ?_, ?_, ?_, ?_, rfl, rfl⟩
  · intro h
    constructor <;>
      simp [getOrderHandleResponse, getPurchaseHistoryHandleResponse, h]
  · rintro (h | h) <;> constructor <;>
      simp [getOrderHandleResponse, getPurchaseHistoryHandleResponse, h]
  · intro h200 h429 h403 h418
    constructor <;>
      simp [getOrderHandleResponse, getPurchaseHistoryHandleResponse, h200, h429, h403, h418]
  · intro h200 hdec
    simp [getOrderHandleResponse, h200, hdec]
  · intro h200 r hdec hord
    simp [getOrderHandleResponse, h200, hdec, hord]
  · intro h200 hdec
    simp [getPurchaseHistoryHandleResponse, h200, hdec]

/-- Witness for C2 at concrete responses exercising every classification
branch of both calls. -/
theorem C2_witness :
    getOrderHandleResponse decNone { statusCode := 429, body := "b" } =
      .error (.rateLimited rateLimitedMsg) ∧
    getPurchaseHistoryHandleResponse decPHNone { statusCode := 429, body := "b" } =
      .error (.rateLimited rateLimitedMsg) ∧
    getOrderHandleResponse decNone { statusCode := 403, body := "b" } =
      .error (.accessDenied accessDeniedMsg) ∧
    getOrderHandleResponse decNone { statusCode := 418, body := "b" } =
      .error (.accessDenied accessDeniedMsg) ∧
    getOrderHandleResponse decNone { statusCode := 500, body := "oops" } =
      .error (.unexpectedStatus 500 (httpStatusMsg 500 "oops")) ∧
    getPurchaseHistoryHandleResponse decPHNone { statusCode := 500, body := "oops" } =
      .error (.unexpectedStatus 500 (httpStatusMsg 500 "oops")) ∧
    getOrderHandleResponse decNone { statusCode := 200, body := "b" } =
      .error (.decodeFailure parseFailMsg) ∧
    getOrderHandleResponse decNilOrder { statusCode := 200, body := "b" } =
      .error (.decodeFailure noOrderDataMsg) ∧
    getPurchaseHistoryHandleResponse decPHNone { statusCode := 200, body := "b" } =
      .error (.decodeFailure parseFailMsg) := by
  refine ⟨?_, ?_, ?_, ?_, ?_, ?_, ?_, ?_, ?_⟩
  · exact ((C2_status_classification decNone decPHNone _).1 rfl).1
  · exact ((C2_status_classification decNone decPHNone _).1 rfl).2
  · exact ((C2_status_classification decNone decPHNone _).2.1 (Or.inl rfl)).1
  · exact ((C2_status_classification decNone decPHNone _).2.1 (Or.inr rfl)).1
  · exact ((C2_status_classification decNone decPHNone _).2.2.1
      (by decide) (by decide) (by decide) (by decide)).1
  · exact ((C2_status_classification decNone decPHNone _).2.2.1
      (by decide) (by decide) (by decide) (by decide)).2
  · exact (C2_status_classification decNone decPHNone _).2.2.2.1 rfl rfl
  · exact (C2_status_classification decNilOrder decPHNone _).2.2.2.2.1 rfl
      { order := none } rfl rfl
  · exact (C2_status_classification decNone decPHNone _).2.2.2.2.2.1 rfl rfl

/-- C7: `GetOrderAutoDetect` returns the first attempt's order when that
attempt succeeds (independently of the second attempt), swallows the
first attempt's failure exactly when the second attempt succeeds, and when
both attempts fail returns the combined failure wrapping the second
attempt's underlying error. -/
theorem C7_auto_detect (fetch fetch2 : Bool → Except CallError Order) (o : Order)
    (e1 e2 : CallError) :
    (fetch true = .ok o → getOrderAutoDetect fetch = .ok o) ∧
    (fetch true = .error e1 → fetch false = .ok o → getOrderAutoDetect fetch = .ok o) ∧
    (fetch true = .error e1 → fetch false = .error e2 →
      getOrderAutoDetect fetch = .error (autoDetectMsg, e2)) ∧
    (fetch true = fetch2 true → (fetch true).isOk = true →
      getOrderAutoDetect fetch = getOrderAutoDetect fetch2) := by
  refine ⟨?_, ?_, ?_, ?_⟩
  · intro h
    simp [getOrderAutoDetect, h]
  · intro h1 h2
    simp [getOrderAutoDetect, h1, h2]
  · intro h1 h2
    simp [getOrderAutoDetect, h1, h2]
  · intro hagree hok
    cases hf : fetch true with
    | error e => rw [hf] at hok; simp [Except.isOk, Except.toBool] at hok
    | ok o' =>
      rw [hf] at hagree
      simp [getOrderAutoDetect, hf, hagree.symm]

/-- Witness for C7 at concrete fetch outcomes: first succeeds, only second
succeeds, both fail, and independence from the second attempt when the
first succeeds. -/
theorem C7_witness :
    getOrderAutoDetect c7FetchOk = .ok c7Order ∧
    getOrderAutoDetect c7FetchSecond = .ok c7Order ∧
    getOrderAutoDetect c7FetchFail = .error (autoDetectMsg, c7Err2) ∧
    getOrderAutoDetect c7FetchOk = getOrderAutoDetect c7FetchOk2 :=
  ⟨(C7_auto_detect c7FetchOk c7FetchOk c7Order c7Err1 c7Err2).1 rfl,
   (C7_auto_detect c7FetchSecond c7FetchSecond c7Order c7Err1 c7Err2).2.1 rfl rfl,
   (C7_auto_detect c7FetchFail c7FetchFail c7Order c7Err1 c7Err2).2.2.1 rfl rfl,
   (C7_auto_detect c7FetchOk c7FetchOk2 c7Order c7Err1 c7Err2).2.2.2 rfl rfl⟩

/-- C9: `GetPurchaseHistory` substitutes the default limit 10 for a zero
`Limit` before building the endpoint, so the `limit` value embedded in the
request's variables object is 10; a non-zero `Limit` passes through
unchanged (and every other field passes through in either case). -/
theorem C9_limit_default (req : PurchaseHistoryRequest) :
    (getPurchaseHistoryRequestVars req).input.limit =
      (if req.limit = 0 then 10 else req.limit) ∧
    (getPurchaseHistoryRequestVars req).input.cursor = req.cursor ∧
    (getPurchaseHistoryRequestVars req).input.search = req.search ∧
    (getPurchaseHistoryRequestVars req).input.filterIds = req.filterIds ∧
    (getPurchaseHistoryRequestVars req).input.orderType = req.orderType ∧
    (getPurchaseHistoryRequestVars req).input.minTimestamp = req.minTimestamp ∧
    (getPurchaseHistoryRequestVars req).input.maxTimestamp = req.maxTimestamp ∧
    (getPurchaseHistoryRequestVars req).platform = "WEB" := by
  by_cases h : req.limit = 0 <;>
    simp [getPurchaseHistoryRequestVars, buildPurchaseHistoryVariables, h]

/-- Witness for C9 at a zero-limit and a five-limit request. -/
theorem C9_witness :
    (getPurchaseHistoryRequestVars phReqZero).input.limit = 10 ∧
    (getPurchaseHistoryRequestVars phReqFive).input.limit = 5 := by
  constructor
  · have h := (C9_limit_default phReqZero).1
    simpa using h
  · have h := (C9_limit_default phReqFive).1
    simpa using h

/-- C4 (code bug): the modelled ticker semantics show the claimed
guarantee failing.  The first call after construction does proceed with no
forced wait, but with a 2-second interval and the first call issued at
t = 3s, a ticker tick from t = 2s is already buffered, so the
back-to-back second call is released immediately at t = 3s: the gap
between the two dispatch times is 0, not at least 2 seconds. -/
theorem C4_ticker_gap_failure :
    (∀ t, (dispatchCall c4Client t).1 = t) ∧
    (dispatchCall c4Client 3).1 = 3 ∧
    (dispatchCall (dispatchCall c4Client 3).2 3).1 = 3 ∧
    ¬ (2 ≤ (dispatchCall (dispatchCall c4Client 3).2 3).1 - (dispatchCall c4Client 3).1) := by
  refine ⟨fun t => rfl, by decide, by decide, by decide⟩

/-- Witness instantiating C4's no-initial-wait clause at a concrete issue
time. -/
theorem C4_witness : (dispatchCall c4Client 5).1 = 5 :=
  C4_ticker_gap_failure.1 5

/-- C8 counterexample: a captured text containing the line fragment
`-b 'a=1; b=2'` in the middle of a line.  The extractor only recognises
lines that begin (after trimming) with the cookie-flag prefix, so the
imported map holds no record at all for `a`, contradicting the claim's
universal quantification over every text containing the fragment. -/
theorem C8_counterexample :
    containsSub c8Frag.data c8Text.data = true ∧
    extractCookiesFromCurl c8Text = [] ∧
    (initializeFromCurl (freshStore "f") c8Text 0).get "a" = none := by decide

/-- C8 amended: for every captured text one of whose backslash-newline
separated lines is exactly `-b 'a=1; b=2'`, with no later line's cookie
flag rebinding `a` or `b`, the import yields `a → "1"` and `b → "2"`, both
with source `"curl"` and `essential = false`, and in general an imported
record's essential flag is true exactly for names in the fixed allow-list
(so `CID` would be essential but `a` is not). -/
theorem C8_curl_import (text : String) (pre post : List String) (cs : CookieStore)
    (now : Nat) (hsplit : goSplit text bsnl = pre ++ c8Frag :: post)
    (hpost : ∀ l ∈ post, "a" ∉ keys (linePairs l) ∧ "b" ∉ keys (linePairs l)) :
    (initializeFromCurl cs text now).get "a" =
      some { value := "1", lastUpdate := now, source := "curl", essential := false } ∧
    (initializeFromCurl cs text now).get "b" =
      some { value := "2", lastUpdate := now, source := "curl", essential := false } ∧
    (∀ name value, (cookieFromCurl name value now).essential = true ↔
      name ∈ essentialCookies) := by
  have hpairs : linePairs c8Frag = [("a", "1"), ("b", "2")] := by decide
  have hextract : extractCookiesFromCurl text =
      post.foldl processCurlLine
        (processCurlLine ((pre).foldl processCurlLine []) c8Frag) := by
    rw [extractCookiesFromCurl, hsplit, List.foldl_append, List.foldl_cons]
  have hnodup : (keys (extractCookiesFromCurl text)).Nodup :=
    nodupKeys_extractCookiesFromCurl text
  have key : ∀ n v, lookupLast [("a", "1"), ("b", "2")] n = some v →
      (∀ l ∈ post, n ∉ keys (linePairs l)) →
      (initializeFromCurl cs text now).get n = some (cookieFromCurl n v now) := by
    intro n v hlast hp
    have hmid : ∀ m, alookup (processCurlLine m c8Frag) n = some v := by
      intro m
      rw [processCurlLine, hpairs, alookup_foldl_aset, hlast]
    have ha : alookup (extractCookiesFromCurl text) n = some v := by
      rw [hextract, alookup_foldl_processCurlLine post _ n hp, hmid]
    rw [initializeFromCurl, importCookies_get, lookupLast_eq_alookup _ _ hnodup, ha]
  refine ⟨?_, ?_, ?_⟩
  · rw [key "a" "1" (by decide) (fun l hl => (hpost l hl).1)]
    have hess : (essentialCookies.any fun e => "a" == e) = false := by decide
    simp only [cookieFromCurl, hess]
  · rw [key "b" "2" (by decide) (fun l hl => (hpost l hl).2)]
    have hess : (essentialCookies.any fun e => "b" == e) = false := by decide
    simp only [cookieFromCurl, hess]
  · intro name value
    show (essentialCookies.any fun e => name == e) = true ↔ name ∈ essentialCookies
    constructor
    · intro h
      obtain ⟨e, he, hbe⟩ := List.any_eq_true.mp h
      exact (eq_of_beq hbe) ▸ he
    · intro hm
      exact List.any_eq_true.mpr ⟨name, hm, beq_self_eq_true name⟩

/-- Witness for C8's amended claim: the captured text consisting of the
single line `-b 'a=1; b=2'`, plus the allow-list check at `CID`. -/
theorem C8_witness :
    (initializeFromCurl (freshStore "f") c8Frag 0).get "a" =
      some { value := "1", lastUpdate := 0, source := "curl", essential := false } ∧
    (initializeFromCurl (freshStore "f") c8Frag 0).get "b" =
      some { value := "2", lastUpdate := 0, source := "curl", essential := false } ∧
    (cookieFromCurl "CID" "x" 0).essential = true := by
  have h := C8_curl_import c8Frag [] [] (freshStore "f") 0 (by decide) (by simp)
  exact ⟨h.1, h.2.1, (h.2.2 "CID" "x").mpr (by decide)⟩

end Walmart
